import Mathlib

/-!
Shallow embedding of the `dynisland-abi` core (src/module.rs and
src/activity_identifier.rs): the activity-identity data model, the
`UIServerCommand` protocol and the `SabiModule` lifecycle contract,
together with proofs of the spec's testable properties.
-/

namespace DynislandAbi

/-! ### Model of Rust primitive orderings

`RString` in abi_stable orders like Rust `String`: lexicographically over the
UTF-8 bytes, which coincides with lexicographic order over Unicode code points.
We model it over the `List Char` of the string with code-point comparison. -/

/-- Integer three-way comparison, as Rust's `Ord for u32` (total order on `Nat`). -/
def natCmp (a b : Nat) : Ordering :=
  if a < b then .lt else if a = b then .eq else .gt

/-- Lexicographic comparison of character lists by code point. -/
def charsCmp : List Char → List Char → Ordering
  | [], [] => .eq
  | [], _ :: _ => .lt
  | _ :: _, [] => .gt
  | a :: as, b :: bs => (natCmp a.toNat b.toNat).then (charsCmp as bs)

/-- Model of `Ord for RString`: lexicographic over the characters. -/
def strCmp (a b : String) : Ordering :=
  charsCmp a.data b.data

/-! ### abi_stable `ROption`

In abi_stable, `ROption` is declared with `RSome` first and `RNone` second and
derives `Ord`, so the derived ordering places every `RSome _` strictly below
`RNone` (present sorts before absent). -/

/-- `abi_stable::std_types::ROption`, variant order as declared in the crate. -/
inductive ROption (α : Type) where
  | RSome : α → ROption α
  | RNone : ROption α
deriving DecidableEq, Repr

/-- The derived `Ord for ROption<T>`: discriminant order `RSome < RNone`,
payloads compared when both are `RSome`. -/
def ROption.cmp (c : α → α → Ordering) : ROption α → ROption α → Ordering
  | .RSome a, .RSome b => c a b
  | .RSome _, .RNone => .lt
  | .RNone, .RSome _ => .gt
  | .RNone, .RNone => .eq

/-- `ROption` to `Option` conversion as used by the accessors in
src/activity_identifier.rs. -/
def ROption.toOption : ROption α → Option α
  | .RSome a => some a
  | .RNone => none

/-! ### `ActivityMetadata` (src/module.rs, lines 213-231)

Fields as declared in src/module.rs: `window_name : ROption<RString>` and
`additional_metadata : RHashMap<RString, RString>`.  The hash map is modelled
as an association list with unique keys kept by `insert`. -/

/-- `ActivityMetadata` as declared in src/module.rs. -/
structure ActivityMetadata where
  window_name : ROption String
  additional_metadata : List (String × String)
deriving DecidableEq, Repr

/-- `Default for ActivityMetadata` (derived): no window name, empty map. -/
def ActivityMetadata.default : ActivityMetadata :=
  { window_name := .RNone, additional_metadata := [] }

/-- `ActivityMetadata::new` (src/activity_identifier.rs): `Self::default()`. -/
def ActivityMetadata.new : ActivityMetadata :=
  ActivityMetadata.default

/-- `ActivityMetadata::set_window_name`: unconditionally stores `RSome`. -/
def ActivityMetadata.set_window_name (m : ActivityMetadata) (window_name : String) :
    ActivityMetadata :=
  { m with window_name := .RSome window_name }

/-- `ActivityMetadata::window_name` accessor: `ROption` to `Option`. -/
def ActivityMetadata.window_name' (m : ActivityMetadata) : Option String :=
  m.window_name.toOption

/-- `RHashMap::insert` on the association-list model: overwrite the key if
present, otherwise add the binding. -/
def mapInsert (l : List (String × String)) (k v : String) : List (String × String) :=
  match l with
  | [] => [(k, v)]
  | (k', v') :: rest =>
    if k' = k then (k, v) :: rest else (k', v') :: mapInsert rest k v

/-- `RHashMap::get` on the association-list model. -/
def mapGet (l : List (String × String)) (k : String) : Option String :=
  match l with
  | [] => none
  | (k', v') :: rest => if k' = k then some v' else mapGet rest k

/-- `Ord for ActivityMetadata` (src/module.rs lines 227-231):
`self.window_name.cmp(&other.window_name)`; `additional_metadata` is ignored. -/
def ActivityMetadata.cmp (a b : ActivityMetadata) : Ordering :=
  ROption.cmp strCmp a.window_name b.window_name

/-- Rust `<` via the `PartialOrd` impl (src/module.rs lines 222-226):
`partial_cmp` is `Some(cmp)`, so `m1 < m2` iff `cmp` yields `Less`. -/
def ActivityMetadata.lt (a b : ActivityMetadata) : Prop :=
  ActivityMetadata.cmp a b = .lt

instance (a b : ActivityMetadata) : Decidable (ActivityMetadata.lt a b) := by
  unfold ActivityMetadata.lt; infer_instance

/-! ### `ActivityIdentifier` (src/module.rs, lines 188-211) -/

/-- `ActivityIdentifier` as declared in src/module.rs: module name, activity
name, and non-identifying metadata. -/
structure ActivityIdentifier where
  module : String
  activity : String
  metadata : ActivityMetadata
deriving DecidableEq, Repr

/-- `ActivityIdentifier::new` (src/activity_identifier.rs): copies the two
name strings and starts with default metadata. -/
def ActivityIdentifier.new (module_name activity_name : String) : ActivityIdentifier :=
  { module := module_name, activity := activity_name,
    metadata := ActivityMetadata.default }

/-- `ActivityIdentifier::module` accessor: returns an owned copy of the name. -/
def ActivityIdentifier.module' (a : ActivityIdentifier) : String :=
  a.module

/-- `ActivityIdentifier::activity` accessor: returns an owned copy of the name. -/
def ActivityIdentifier.activity' (a : ActivityIdentifier) : String :=
  a.activity

/-- `ActivityIdentifier::metadata` accessor: a cloned snapshot of the metadata. -/
def ActivityIdentifier.metadata' (a : ActivityIdentifier) : ActivityMetadata :=
  a.metadata

/-- `PartialEq for ActivityIdentifier` (src/module.rs lines 207-211):
`self.module == other.module && self.activity == other.activity`. -/
def ActivityIdentifier.beq (a b : ActivityIdentifier) : Bool :=
  a.module == b.module && a.activity == b.activity

/-- `Hash for ActivityIdentifier` (src/module.rs lines 200-205): the hasher
state is fed `module` then `activity`, nothing else.  Modelled for an
arbitrary hasher: `step` is the state transition of hashing one string. -/
def ActivityIdentifier.hashWith {σ : Type} (step : σ → String → σ) (s : σ)
    (a : ActivityIdentifier) : σ :=
  step (step s a.module) a.activity

/-- The derived `Ord for ActivityIdentifier` (src/module.rs line 189):
lexicographic over the fields in declaration order, `module`, then
`activity`, then `metadata`. -/
def ActivityIdentifier.cmp (a b : ActivityIdentifier) : Ordering :=
  (strCmp a.module b.module).then
    ((strCmp a.activity b.activity).then (ActivityMetadata.cmp a.metadata b.metadata))

/-! ### The `impl ActivityMetadata` block of src/activity_identifier.rs

That impl block's `set_additional_metadata` / `additional_metadata` methods
assign and read `ROption::RSome(..)` in the `additional_metadata` field,
treating it as a single optional string slot, whereas src/module.rs declares
the same field as `RHashMap<RString, RString>` (and its unit test calls keyed
`.insert` on it).  The two files are mutually inconsistent; this structure
embeds the field shape the impl block assumes so its methods can be stated
exactly as written. -/

/-- `ActivityMetadata` with the field shape assumed by the impl block in
src/activity_identifier.rs: both fields are single optional string slots. -/
structure ActivityMetadataSlot where
  window_name : ROption String
  additional_metadata : ROption String
deriving DecidableEq, Repr

/-- Default state of the slot-shaped metadata: both slots empty. -/
def ActivityMetadataSlot.default : ActivityMetadataSlot :=
  { window_name := .RNone, additional_metadata := .RNone }

/-- `ActivityMetadata::set_additional_metadata` (src/activity_identifier.rs
lines 48-50): `self.additional_metadata = ROption::RSome(..)` — replaces the
whole slot, taking a single string and no key. -/
def ActivityMetadataSlot.set_additional_metadata (m : ActivityMetadataSlot)
    (additional_metadata : String) : ActivityMetadataSlot :=
  { m with additional_metadata := .RSome additional_metadata }

/-- `ActivityMetadata::additional_metadata` accessor (src/activity_identifier.rs
lines 51-56): `ROption` to `Option`. -/
def ActivityMetadataSlot.additional_metadata' (m : ActivityMetadataSlot) : Option String :=
  m.additional_metadata.toOption

/-! ### Error results and the `SabiModule` capability set -/

/-- `abi_stable::std_types::RResult`. -/
inductive RResult (α ε : Type) where
  | ROk : α → RResult α ε
  | RErr : ε → RResult α ε
deriving DecidableEq, Repr

/-- Modelled from the spec: `RBoxError` payloads are type-erased boxed errors;
the spec's error taxonomy distinguishes `NotImplemented` (the
`NotImplementedError` type lives in the crate root, outside src/) from parse
failures and other errors, so the box is modelled as a tagged error value. -/
inductive RBoxErrorModel where
  | notImplemented
  | configParse (msg : String)
  | other (msg : String)
deriving DecidableEq, Repr

/-- `SabiModule::default_config` default body (src/module.rs lines 104-106):
`RErr(RBoxError::new(NotImplementedError::default()))`. -/
def SabiModule.default_config_default : RResult String RBoxErrorModel :=
  .RErr .notImplemented

/-- `SabiModule::cli_command` default body (src/module.rs lines 109-111):
ignores the command and returns `RErr(RBoxError::new(NotImplementedError::default()))`. -/
def SabiModule.cli_command_default (_command : String) : RResult String RBoxErrorModel :=
  .RErr .notImplemented

/-! ### The documented `update_config` reference implementation

`SabiModule::update_config` has no default body; src/module.rs lines 41-72
document the reference implementation every module is expected to follow.  It
parses the blob to a `ron::Value` with `.unwrap()` (a panic on syntactically
invalid input), then converts the value to the config struct, falling back to
the old config and logging an error when conversion fails, and returns
`ROk(())` in either case.  The two external parsing stages are parameters;
panic is modelled as `none`; emitted log lines are returned alongside. -/

/-- The doc example's `ModuleConfig` (src/module.rs lines 45-55):
one field, default 42. -/
structure ModuleConfig where
  example_value : Int
deriving DecidableEq, Repr

/-- `Default for ModuleConfig`: `example_value = 42`. -/
def ModuleConfig.default : ModuleConfig :=
  { example_value := 42 }

/-- The doc example's module state: the current config. -/
structure ExampleModule where
  config : ModuleConfig
deriving DecidableEq, Repr

/-- An abstract `ron::Value`: some intermediate representation of the blob. -/
structure RonValue where
  raw : String
deriving DecidableEq, Repr

/-- The documented `update_config` body (src/module.rs lines 57-70), with the
external `ron::from_str` and `into_rust` stages passed as parameters.
Returns `none` where the example panics (`.unwrap()` on a failed
`ron::from_str`); otherwise returns the new module state, the emitted log
lines and the result value the caller sees. -/
def ExampleModule.update_config (fromStr : String → Option RonValue)
    (intoRust : RonValue → Option ModuleConfig) (m : ExampleModule)
    (config : String) : Option (ExampleModule × List String × RResult Unit RBoxErrorModel) :=
  match fromStr config with
  | none => none
  | some conf =>
    let old_config := m.config
    match intoRust conf with
    | some parsed => some ({ m with config := parsed }, [], .ROk ())
    | none =>
      some ({ m with config := old_config },
            ["parsing error, using old config"], .ROk ())

/-! ### The command protocol (src/module.rs, lines 156-180) -/

/-- Modelled from the spec: `SabiWidget` is the widget handle type from the
crate root (outside src/); the command protocol only moves it around, so it
is modelled as an abstract handle. -/
structure SabiWidget where
  handle : Nat
deriving DecidableEq, Repr

/-- `UIServerCommand` (src/module.rs lines 159-180): the closed set of
commands a module can send to the app thread.  `mode: u8` and
`duration: ROption<u64>` carry no arithmetic here and are modelled over `Nat`. -/
inductive UIServerCommand where
  | AddActivity (activity_id : ActivityIdentifier) (widget : SabiWidget)
  | RemoveActivity (activity_id : ActivityIdentifier)
  | RestartProducers (module_name : String)
  | RequestNotification (activity_id : ActivityIdentifier) (mode : Nat)
      (duration : ROption Nat)
deriving DecidableEq, Repr

/-! ### The command channel

Modelled from the spec: the channel itself (`RSender<UIServerCommand>`, an
abi_stable wrapper over a crossbeam channel) is external to src/; per the
spec's §4.2 ordering guarantee it behaves, toward a single module instance,
as a FIFO queue that the host drains in enqueue order. -/

/-- Modelled from the spec: the pending commands of one module's channel, in
enqueue order; the host receives them front to back. -/
def sendCommand (chan : List UIServerCommand) (c : UIServerCommand) :
    List UIServerCommand :=
  chan ++ [c]

/-- Modelled from the spec: the order in which the host's event loop receives
the queued commands — exactly the enqueue order. -/
def hostReceiptOrder (chan : List UIServerCommand) : List UIServerCommand :=
  chan

/-- The window-name ordering exactly as the spec words it: absent < present,
then lexical.  Stated only to compare the spec's words with the code's
ordering; the code's ordering is `ROption.cmp strCmp`. -/
def specWindowNameCmp : ROption String → ROption String → Ordering
  | .RNone, .RNone => .eq
  | .RNone, .RSome _ => .lt
  | .RSome _, .RNone => .gt
  | .RSome a, .RSome b => strCmp a b

/-- Recognizer for a `ConfigParseError` result, used to state concrete
evaluations without binders. -/
def isConfigParseErr : RResult Unit RBoxErrorModel → Bool
  | .RErr (.configParse _) => true
  | _ => false

/-! ### Concrete values used in witnesses, mirroring the unit tests in
src/module.rs and the examples in the spec -/

/-- Metadata with a window name and one extra entry, as built by the unit
tests in src/module.rs. -/
def mdWindow : ActivityMetadata :=
  { window_name := .RSome "window", additional_metadata := [("test", "test")] }

/-- The identifier `("module", "activity")` with default metadata, as in the
unit tests of src/module.rs. -/
def actPlain : ActivityIdentifier :=
  { module := "module", activity := "activity", metadata := ActivityMetadata.default }

/-- The identifier `("module", "activity")` with window name and an extra
metadata entry, as in the unit tests of src/module.rs. -/
def actMeta : ActivityIdentifier :=
  { module := "module", activity := "activity", metadata := mdWindow }

/-- `actPlain` after `set_window_name("window")`, as in the second half of
`test_activity_identifier_cmp`. -/
def actPlainWindow : ActivityIdentifier :=
  { actPlain with metadata := actPlain.metadata.set_window_name "window" }

/-- An identifier differing from `actPlain` in the activity name. -/
def actOther : ActivityIdentifier :=
  { module := "module", activity := "other", metadata := ActivityMetadata.default }

/-! ### Helper lemmas about the comparison model -/

/-- `natCmp` yields `eq` exactly on equal numbers. -/
theorem natCmp_eq_eq {a b : Nat} : natCmp a b = .eq ↔ a = b := by
  unfold natCmp
  split
  · simp; omega
  · split <;> simp_all

/-- `charsCmp` yields `eq` exactly on equal lists. -/
theorem charsCmp_eq_eq (l1 l2 : List Char) : charsCmp l1 l2 = .eq ↔ l1 = l2 := by
  induction l1 generalizing l2 with
  | nil => cases l2 <;> simp [charsCmp]
  | cons a as ih =>
    cases l2 with
    | nil => simp [charsCmp]
    | cons b bs =>
      simp only [charsCmp, Ordering.then_eq_eq, natCmp_eq_eq, ih, List.cons.injEq]
      constructor
      · rintro ⟨h1, h2⟩
        exact ⟨Char.eq_of_val_eq (UInt32.toNat.inj h1), h2⟩
      · rintro ⟨h1, h2⟩
        exact ⟨by rw [h1], h2⟩

/-- `strCmp` yields `eq` exactly on equal strings. -/
theorem strCmp_eq_eq (a b : String) : strCmp a b = .eq ↔ a = b := by
  rw [strCmp, charsCmp_eq_eq]
  exact ⟨fun h => String.ext h, fun h => by rw [h]⟩

/-- `strCmp` is reflexive. -/
theorem strCmp_refl (a : String) : strCmp a a = .eq :=
  (strCmp_eq_eq a a).mpr rfl

/-- The derived `ROption` comparison over strings yields `eq` exactly on
equal values. -/
theorem rOptionCmp_str_eq_eq (a b : ROption String) :
    ROption.cmp strCmp a b = .eq ↔ a = b := by
  cases a <;> cases b <;> simp [ROption.cmp, strCmp_eq_eq]

/-! ### The claims -/

/-- C1: `ActivityIdentifier` equality holds exactly when both `module` and
`activity` coincide; the hash depends only on `(module, activity)` (for any
hasher, identifiers with equal names hash to the same state regardless of
metadata); identifiers differing in `module` or `activity` are unequal
regardless of metadata. -/
theorem C1_identity_only_by_module_activity (a b : ActivityIdentifier)
    (σ : Type) (step : σ → String → σ) (s : σ) :
    (ActivityIdentifier.beq a b = true ↔ a.module = b.module ∧ a.activity = b.activity)
    ∧ (a.module = b.module → a.activity = b.activity →
        ActivityIdentifier.hashWith step s a = ActivityIdentifier.hashWith step s b)
    ∧ (a.module ≠ b.module ∨ a.activity ≠ b.activity →
        ActivityIdentifier.beq a b = false) := by
  refine ⟨?_, ?_, ?_⟩
  · simp [ActivityIdentifier.beq]
  · intro h1 h2
    simp [ActivityIdentifier.hashWith, h1, h2]
  · rintro (h | h) <;> simp [ActivityIdentifier.beq, h]

/-- C1 witness: the test pair of src/module.rs — same names, one side with a
window name and an extra metadata entry — is equal and hashes identically
under a concrete hasher, while a pair differing in activity name is unequal. -/
theorem C1_identity_only_by_module_activity_witness :
    (ActivityIdentifier.beq actPlain actMeta = true)
    ∧ (ActivityIdentifier.hashWith (fun l s => s :: l) ([] : List String) actPlain
        = ActivityIdentifier.hashWith (fun l s => s :: l) ([] : List String) actMeta)
    ∧ (ActivityIdentifier.beq actPlain actOther = false) :=
  ⟨(C1_identity_only_by_module_activity actPlain actMeta (List String)
      (fun l s => s :: l) []).1.mpr ⟨rfl, rfl⟩,
   (C1_identity_only_by_module_activity actPlain actMeta (List String)
      (fun l s => s :: l) []).2.1 rfl rfl,
   (C1_identity_only_by_module_activity actPlain actOther (List String)
      (fun l s => s :: l) []).2.2 (Or.inr (by decide))⟩

/-- C2 counterexample: for metadata `m1` with no window name and `m2` with
window name `"window"`, the spec's (absent < present) ordering puts
`m1.window_name` below `m2.window_name`, so the claim forces `m1 < m2`; the
code's derived `ROption` ordering (`RSome` before `RNone`) instead yields
`Greater`, exactly as the unit test `test_activity_identifier_cmp` asserts. -/
theorem C2_counterexample_absent_sorts_last :
    specWindowNameCmp ActivityMetadata.default.window_name mdWindow.window_name = .lt
    ∧ ¬ ActivityMetadata.lt ActivityMetadata.default mdWindow
    ∧ ActivityMetadata.cmp ActivityMetadata.default mdWindow = .gt := by
  refine ⟨rfl, ?_, rfl⟩
  intro h
  simp [ActivityMetadata.lt, ActivityMetadata.cmp, ROption.cmp, ActivityMetadata.default,
    mdWindow] at h

/-- C2 (amended): the total order on `ActivityMetadata` is determined by
`window_name` alone — a present window name orders before an absent one
(the derived `ROption` ordering has `RSome` below `RNone`), and present
names are ordered lexically; `additional_metadata` never influences the
comparison, and `m1 < m2` holds exactly when the window-name comparison
yields `Less`. -/
theorem C2_order_by_window_name_present_first (m1 m2 : ActivityMetadata)
    (l1 l2 : List (String × String)) :
    (ActivityMetadata.cmp m1 m2 = ROption.cmp strCmp m1.window_name m2.window_name)
    ∧ (ActivityMetadata.cmp { m1 with additional_metadata := l1 }
        { m2 with additional_metadata := l2 } = ActivityMetadata.cmp m1 m2)
    ∧ (ActivityMetadata.lt m1 m2 ↔
        ROption.cmp strCmp m1.window_name m2.window_name = .lt)
    ∧ (∀ s, ROption.cmp strCmp (ROption.RSome s) .RNone = .lt)
    ∧ (∀ s t, ROption.cmp strCmp (ROption.RSome s) (ROption.RSome t) = strCmp s t) :=
  ⟨rfl, rfl, Iff.rfl, fun _ => rfl, fun _ _ => rfl⟩

/-- C2 witness: concrete instantiation on the unit test's metadata pair —
the comparison equals the window-name comparison and `lt` matches it. -/
theorem C2_order_by_window_name_present_first_witness :
    (ActivityMetadata.cmp mdWindow ActivityMetadata.default
      = ROption.cmp strCmp mdWindow.window_name ActivityMetadata.default.window_name)
    ∧ (ActivityMetadata.lt mdWindow ActivityMetadata.default ↔
        ROption.cmp strCmp mdWindow.window_name ActivityMetadata.default.window_name
          = .lt) :=
  ⟨(C2_order_by_window_name_present_first mdWindow ActivityMetadata.default [] []).1,
   (C2_order_by_window_name_present_first mdWindow ActivityMetadata.default [] []).2.2.1⟩

/-- C3: evaluating `set_additional_metadata` as written in
src/activity_identifier.rs at the failing input — two successive calls on
default metadata — shows the second call erases the first: the method
replaces the whole single-slot annotation and takes no key, while the field
it assigns to is declared as a keyed `RHashMap` in src/module.rs, whose
`insert` (used by the crate's own unit test) does preserve other keys. -/
theorem C3_set_additional_metadata_slot_replaces :
    ((ActivityMetadataSlot.default.set_additional_metadata "a").set_additional_metadata
        "b").additional_metadata' = some "b"
    ∧ ((ActivityMetadataSlot.default.set_additional_metadata "a").set_additional_metadata
        "b").additional_metadata' ≠ some "a"
    ∧ mapGet (mapInsert (mapInsert [] "k1" "v1") "k2" "v2") "k1" = some "v1"
    ∧ mapGet (mapInsert (mapInsert [] "k1" "v1") "k2" "v2") "k2" = some "v2" := by
  refine ⟨rfl, by decide, by decide, by decide⟩

/-- C4: `set_window_name` overwrites unconditionally — after setting `x` and
then `y`, the accessor reports `Some y`. -/
theorem C4_set_window_name_overwrites (m : ActivityMetadata) (x y : String) :
    ((m.set_window_name x).set_window_name y).window_name' = some y :=
  rfl

/-- C5: `ActivityIdentifier::new` stores the two names, retrievable through
the accessors, and starts with default metadata: no window name and an empty
additional-metadata mapping; `ActivityMetadata::new` is that same default. -/
theorem C5_new_starts_with_default_metadata (m a : String) :
    (ActivityIdentifier.new m a).module' = m
    ∧ (ActivityIdentifier.new m a).activity' = a
    ∧ (ActivityIdentifier.new m a).metadata' = ActivityMetadata.default
    ∧ (ActivityIdentifier.new m a).metadata'.window_name' = none
    ∧ (ActivityIdentifier.new m a).metadata'.additional_metadata = []
    ∧ ActivityMetadata.new = ActivityMetadata.default
    ∧ ActivityMetadata.new.window_name' = none
    ∧ ActivityMetadata.new.additional_metadata = [] :=
  ⟨rfl, rfl, rfl, rfl, rfl, rfl, rfl, rfl⟩

/-- C6: the default bodies of the two optional capabilities each return an
error wrapping the `NotImplemented` condition, which is distinguishable from
the other error kinds; neither ever returns a success value (in particular
not an empty string). -/
theorem C6_optional_capabilities_signal_not_implemented :
    SabiModule.default_config_default = .RErr .notImplemented
    ∧ (∀ cmd, SabiModule.cli_command_default cmd = .RErr .notImplemented)
    ∧ (∀ s, SabiModule.default_config_default ≠ .ROk s)
    ∧ (∀ cmd s, SabiModule.cli_command_default cmd ≠ .ROk s)
    ∧ (∀ msg, RBoxErrorModel.notImplemented ≠ .configParse msg)
    ∧ (∀ msg, RBoxErrorModel.notImplemented ≠ .other msg) := by
  refine ⟨rfl, fun _ => rfl, ?_, ?_, ?_, ?_⟩
  · intro s h
    simp [SabiModule.default_config_default] at h
  · intro cmd s h
    simp [SabiModule.cli_command_default] at h
  · intro msg h
    cases h
  · intro msg h
    cases h

/-- C6 witness: concrete instantiation — the default cli capability invoked
with `""` yields the `NotImplemented` error, and the default-config
capability is not the success `ROk ""`. -/
theorem C6_optional_capabilities_signal_not_implemented_witness :
    SabiModule.cli_command_default "" = .RErr .notImplemented
    ∧ SabiModule.default_config_default ≠ .ROk "" :=
  ⟨C6_optional_capabilities_signal_not_implemented.2.1 "",
   C6_optional_capabilities_signal_not_implemented.2.2.1 ""⟩

/-- C7 counterexample: with the reference `update_config` of src/module.rs on
a module holding config `{example_value: 7}` and a blob whose struct
conversion fails, the effective config is indeed retained, but the call
returns `ROk(())` after logging — not a `ConfigParseError` as the claim
requires. -/
theorem C7_counterexample_returns_ok_on_parse_failure :
    (ExampleModule.update_config (fun s => some ⟨s⟩) (fun _ => none) ⟨⟨7⟩⟩ "malformed"
      = some (⟨⟨7⟩⟩, ["parsing error, using old config"], .ROk ()))
    ∧ ((ExampleModule.update_config (fun s => some ⟨s⟩) (fun _ => none) ⟨⟨7⟩⟩
        "malformed").map (fun r => isConfigParseErr r.2.2) = some false) :=
  ⟨rfl, rfl⟩

/-- C7 (amended): for the documented reference implementation of
`update_config`, a blob that parses as a `ron::Value` but fails conversion to
the config struct leaves the module's effective configuration unchanged, logs
the parse failure, and returns success (`ROk`) rather than an error; a blob
that does not even parse as a `ron::Value` makes the reference implementation
panic (`.unwrap()`), modelled as `none`. -/
theorem C7_update_config_retains_old_config (fromStr : String → Option RonValue)
    (intoRust : RonValue → Option ModuleConfig) (m : ExampleModule) (blob : String)
    (v : RonValue) (h1 : fromStr blob = some v) (h2 : intoRust v = none) :
    ExampleModule.update_config fromStr intoRust m blob
      = some (m, ["parsing error, using old config"], .ROk ())
    ∧ (∀ blob2, fromStr blob2 = none →
        ExampleModule.update_config fromStr intoRust m blob2 = none) := by
  constructor
  · unfold ExampleModule.update_config
    rw [h1]
    simp [h2]
  · intro blob2 h
    unfold ExampleModule.update_config
    rw [h]

/-- C7 witness: concrete run — config `{example_value: 7}` with a blob whose
struct conversion fails is retained and the call reports success with the
logged parse error. -/
theorem C7_update_config_retains_old_config_witness :
    ExampleModule.update_config (fun s => some ⟨s⟩) (fun _ => none) ⟨⟨7⟩⟩ "bad blob"
      = some (⟨⟨7⟩⟩, ["parsing error, using old config"], .ROk ()) :=
  (C7_update_config_retains_old_config (fun s => some ⟨s⟩) (fun _ => none) ⟨⟨7⟩⟩
    "bad blob" ⟨"bad blob"⟩ rfl rfl).1

/-- C8: `UIServerCommand` is a closed tagged union — every value is one of
exactly the four variants `AddActivity`, `RemoveActivity`,
`RestartProducers`, `RequestNotification`, the last carrying a mode selector
and an optional (`ROption`) millisecond duration. -/
theorem C8_command_set_is_closed (c : UIServerCommand) :
    (∃ id w, c = .AddActivity id w)
    ∨ (∃ id, c = .RemoveActivity id)
    ∨ (∃ n, c = .RestartProducers n)
    ∨ (∃ id mode dur, c = .RequestNotification id mode dur) := by
  cases c with
  | AddActivity id w => exact Or.inl ⟨id, w, rfl⟩
  | RemoveActivity id => exact Or.inr (Or.inl ⟨id, rfl⟩)
  | RestartProducers n => exact Or.inr (Or.inr (Or.inl ⟨n, rfl⟩))
  | RequestNotification id mode dur => exact Or.inr (Or.inr (Or.inr ⟨id, mode, dur, rfl⟩))

/-- C9: per-sender FIFO — two commands enqueued in order on one module's
channel are received by the host in that order, after everything already
queued; the model says nothing about interleaving with other modules'
channels. -/
theorem C9_single_sender_fifo (chan : List UIServerCommand) (c1 c2 : UIServerCommand) :
    hostReceiptOrder (sendCommand (sendCommand chan c1) c2)
      = hostReceiptOrder chan ++ [c1, c2] := by
  simp [hostReceiptOrder, sendCommand]

/-- C10: equality and the derived ordering of `ActivityIdentifier` disagree —
the unit-test pair (equal names, differing window name) satisfies `==` yet
compares `Greater`; and for identifiers with equal names the derived `cmp`
yields `Equal` exactly when the `window_name` values also coincide. -/
theorem C10_eq_not_consistent_with_cmp :
    (ActivityIdentifier.beq actPlain actMeta = true
      ∧ ActivityIdentifier.cmp actPlain actMeta = .gt
      ∧ ActivityIdentifier.cmp actPlainWindow actMeta = .eq)
    ∧ (∀ a b : ActivityIdentifier, a.module = b.module → a.activity = b.activity →
        (ActivityIdentifier.cmp a b = .eq ↔
          a.metadata.window_name = b.metadata.window_name)) := by
  constructor
  · refine ⟨by decide, ?_, ?_⟩
    · simp [ActivityIdentifier.cmp, actPlain, actMeta, ActivityMetadata.cmp,
        ActivityMetadata.default, mdWindow, ROption.cmp, strCmp_refl, Ordering.then]
    · simp [ActivityIdentifier.cmp, actPlainWindow, actPlain, actMeta,
        ActivityMetadata.cmp, ActivityMetadata.default, ActivityMetadata.set_window_name,
        mdWindow, ROption.cmp, strCmp_refl, Ordering.then]
  · intro a b h1 h2
    simp only [ActivityIdentifier.cmp, h1, h2, strCmp_refl, Ordering.then_eq_eq,
      ActivityMetadata.cmp, rOptionCmp_str_eq_eq, true_and]

/-- C10 witness: the equal-keys case at the unit test's concrete identifiers —
`cmp` is `Equal` exactly when the window names coincide. -/
theorem C10_eq_not_consistent_with_cmp_witness :
    ActivityIdentifier.cmp actPlainWindow actMeta = .eq ↔
      actPlainWindow.metadata.window_name = actMeta.metadata.window_name :=
  C10_eq_not_consistent_with_cmp.2 actPlainWindow actMeta rfl rfl

end DynislandAbi
